import Mathlib

/-!
Verification development for the Big Wiz Auto Mix audio-processing core.

The definitions below are shallow embeddings of the TypeScript source:

* MacroProcessor (macro settings to DSP parameter sets) with its per-role
  enhancers, defaults and the linear interpolation helper mapRange;
* the rule-based stem role classifier (detectRole) together with its
  helper predicates, confidence and reasoning generators, the per-stem
  analysis loop analyzeStems and its failure fallback;
* the placeholder MaskingAnalyzer.analyze;
* the static wave-shaper curve createSaturationCurve of the signal chain
  builder (values over the real numbers);
* the sidechain ducker gain after disable: the Web Audio
  setTargetAtTime exponential-approach law for the disable restore write
  (target 1, time constant 0.05 s) together with the re-ducking writes
  that the envelope follower's still-registered onLevelChange callback
  keeps issuing from its 10 ms monitor interval.

JavaScript numbers are modelled as exact rationals where the source only
performs field arithmetic, and as real numbers where the source uses the
transcendental functions Math.tanh and the exponential parameter ramps of
Web Audio.  Decimal literals of the source are written as the equal
fractions (0.1 = 1/10 and so on).
-/

/-- Closed stem-role enumeration (StemRole in types.ts). -/
inductive StemRole
  | kick
  | snare
  | hihat
  | drums
  | percussion
  | bass
  | lead
  | pad
  | arpeggio
  | vocal
  | harmony
  | fx
  | other
deriving DecidableEq, Repr

/-- MixerSettings (types.ts): three dB targets and six 0-100 macros. -/
structure MixerSettings where
  previewLUFS : ℚ
  streamLUFS : ℚ
  peakCeiling : ℚ
  punch : ℚ
  warmth : ℚ
  clarity : ℚ
  air : ℚ
  width : ℚ
  reverb : ℚ
deriving DecidableEq, Repr

/-- Filter type of an EQBand (macroProcessor.ts). -/
inductive EQBandType
  | bell
  | highshelf
  | lowshelf
  | highpass
  | lowpass
deriving DecidableEq, Repr

/-- EQBand of the macro processor output. -/
structure EQBand where
  frequency : ℚ
  gain : ℚ
  q : ℚ
  type : EQBandType
  enabled : Bool
deriving DecidableEq, Repr

/-- CompressionSettings of the macro processor output. -/
structure CompressionSettings where
  threshold : ℚ
  ratio : ℚ
  attack : ℚ
  release : ℚ
  makeupGain : ℚ
  enabled : Bool
deriving DecidableEq, Repr

/-- Saturation character, the 'tube' | 'tape' | 'transistor' union. -/
inductive SatCharacter
  | tube
  | tape
  | transistor
deriving DecidableEq, Repr

/-- SaturationSettings of the macro processor output. -/
structure SaturationSettings where
  drive : ℚ
  character : SatCharacter
  mix : ℚ
  enabled : Bool
deriving DecidableEq, Repr

/-- StereoWidthSettings of the macro processor output. -/
structure StereoWidthSettings where
  width : ℚ
  bassMonoFreq : ℚ
  sideLowCut : ℚ
  enabled : Bool
deriving DecidableEq, Repr

/-- LimiterSettings of the macro processor output. -/
structure LimiterSettings where
  ceiling : ℚ
  release : ℚ
  lookahead : ℚ
  enabled : Bool
deriving DecidableEq, Repr

/-- MacroProcessingResult, the full output of the macro processor. -/
structure MacroProcessingResult where
  eqCurve : List EQBand
  compression : CompressionSettings
  saturation : SaturationSettings
  stereoWidth : StereoWidthSettings
  limiterSettings : LimiterSettings
  reverbSend : ℚ
deriving DecidableEq, Repr

namespace MacroProcessor

/-- MacroProcessor.mapRange: plain linear interpolation, no clamping. -/
def mapRange (value inMin inMax outMin outMax : ℚ) : ℚ :=
  outMin + (value - inMin) * (outMax - outMin) / (inMax - inMin)

/-- MacroProcessor.isPercussive. -/
def isPercussive (role : Option StemRole) : Bool :=
  role = some StemRole.kick || role = some StemRole.snare ||
    role = some StemRole.drums || role = some StemRole.percussion ||
    role = some StemRole.hihat

/-- MacroProcessor.getDefaultCompression. -/
def getDefaultCompression : CompressionSettings :=
  { threshold := 0, ratio := 1, attack := 30, release := 100,
    makeupGain := 0, enabled := false }

/-- MacroProcessor.getDefaultSaturation. -/
def getDefaultSaturation : SaturationSettings :=
  { drive := 0, character := SatCharacter.tube, mix := 0, enabled := false }

/-- MacroProcessor.getDefaultStereoWidth. -/
def getDefaultStereoWidth : StereoWidthSettings :=
  { width := 100, bassMonoFreq := 120, sideLowCut := 100, enabled := false }

/-- MacroProcessor.getDefaultLimiter: a fixed -0.1 dBFS ceiling. -/
def getDefaultLimiter : LimiterSettings :=
  { ceiling := -1/10, release := 50, lookahead := 5, enabled := true }

/-- MacroProcessor.processSettingsToChain, block for block: clarity EQ,
punch compression, warmth EQ and saturation, width, air, and the final
glue override that is keyed off punch. -/
def processSettingsToChain (settings : MixerSettings)
    (stemRole : Option StemRole) : MacroProcessingResult :=
  let result : MacroProcessingResult :=
    { eqCurve := [], compression := getDefaultCompression,
      saturation := getDefaultSaturation, stereoWidth := getDefaultStereoWidth,
      limiterSettings := getDefaultLimiter, reverbSend := settings.reverb }
  -- 1) CLARITY
  let result : MacroProcessingResult :=
    if settings.clarity > 0 then
      let clarityGain := mapRange settings.clarity 0 100 0 4
      let result : MacroProcessingResult :=
        { result with eqCurve := result.eqCurve ++
            [{ frequency := 8000, gain := clarityGain, q := 7/10,
               type := EQBandType.highshelf, enabled := true }] }
      if settings.clarity > 50 then
        let mudCut := mapRange settings.clarity 50 100 0 (-2)
        { result with eqCurve := result.eqCurve ++
            [{ frequency := 350, gain := mudCut, q := 6/5,
               type := EQBandType.bell, enabled := true }] }
      else result
    else result
  -- 2) PUNCH
  let result : MacroProcessingResult :=
    if settings.punch > 0 then
      { result with compression :=
          { threshold := mapRange settings.punch 0 100 (-3) (-15),
            ratio := mapRange settings.punch 0 100 (13/10) (21/10),
            attack := if isPercussive stemRole
              then mapRange settings.punch 0 100 30 10
              else mapRange settings.punch 0 100 30 15,
            release := mapRange settings.punch 0 100 50 150,
            makeupGain := mapRange settings.punch 0 100 0 3,
            enabled := decide (settings.punch > 5) } }
    else result
  -- 3) WARMTH
  let result : MacroProcessingResult :=
    if settings.warmth > 0 then
      let lowBoost := mapRange settings.warmth 0 100 0 2
      let result : MacroProcessingResult :=
        { result with eqCurve := result.eqCurve ++
            [{ frequency := 160, gain := lowBoost, q := 7/10,
               type := EQBandType.lowshelf, enabled := true }] }
      let midCut := mapRange settings.warmth 0 100 0 (-3)
      let result : MacroProcessingResult :=
        { result with eqCurve := result.eqCurve ++
            [{ frequency := 4000, gain := midCut, q := 1,
               type := EQBandType.bell, enabled := true }] }
      { result with saturation :=
          { drive := mapRange settings.warmth 0 100 0 2,
            character := SatCharacter.tube,
            mix := mapRange settings.warmth 0 100 0 25,
            enabled := decide (settings.warmth > 10) } }
    else result
  -- 4) WIDTH
  let result : MacroProcessingResult :=
    if settings.width ≠ 0 then
      { result with stereoWidth :=
          { width := mapRange settings.width 0 100 50 150,
            bassMonoFreq := 120, sideLowCut := 100, enabled := true } }
    else result
  -- 5) AIR
  let result : MacroProcessingResult :=
    if settings.air ≠ 0 then
      let airGain := mapRange settings.air 0 100 0 3
      { result with eqCurve := result.eqCurve ++
          [{ frequency := 14000, gain := airGain, q := 1/2,
             type := EQBandType.highshelf, enabled := true }] }
    else result
  -- 6) GLUE (implemented through the punch compression)
  let result : MacroProcessingResult :=
    if settings.punch > 0 then
      let comp := result.compression
      let result : MacroProcessingResult :=
        { result with compression :=
            { comp with attack := max comp.attack 20,
                        release := max comp.release 100 } }
      let sat := result.saturation
      { result with saturation :=
          { sat with drive := max sat.drive (1/2),
                     character := SatCharacter.tape } }
    else result
  result

/-- MacroProcessor.enhanceForKick. -/
def enhanceForKick (chain : MacroProcessingResult)
    (settings : MixerSettings) : MacroProcessingResult :=
  let chain :=
    { chain with eqCurve :=
        { frequency := 60, gain := mapRange settings.punch 0 100 0 2,
          q := 1, type := EQBandType.bell, enabled := true } :: chain.eqCurve }
  let chain :=
    if settings.clarity > 50 then
      { chain with eqCurve := chain.eqCurve ++
          [{ frequency := 4000, gain := mapRange settings.clarity 50 100 0 (3/2),
             q := 3/2, type := EQBandType.bell, enabled := true }] }
    else chain
  let comp := chain.compression
  { chain with compression :=
      { comp with attack := min comp.attack 5,
                  ratio := max ( CompressionSettings.ratio comp) 3 } }

/-- MacroProcessor.enhanceForSnare. -/
def enhanceForSnare (chain : MacroProcessingResult)
    (settings : MixerSettings) : MacroProcessingResult :=
  let chain :=
    { chain with eqCurve :=
        { frequency := 250, gain := mapRange settings.punch 0 100 0 2,
          q := 6/5, type := EQBandType.bell, enabled := true } :: chain.eqCurve }
  if settings.clarity > 30 then
    { chain with eqCurve := chain.eqCurve ++
        [{ frequency := 5000, gain := mapRange settings.clarity 30 100 0 3,
           q := 2, type := EQBandType.bell, enabled := true }] }
  else chain

/-- MacroProcessor.enhanceForBass: the stereo width is clamped to 100
before the fundamental and harmonic bells are added. -/
def enhanceForBass (chain : MacroProcessingResult)
    (settings : MixerSettings) : MacroProcessingResult :=
  let sw := chain.stereoWidth
  let chain :=
    { chain with stereoWidth := { sw with width := min sw.width 100 } }
  let chain :=
    { chain with eqCurve :=
        { frequency := 100, gain := mapRange settings.warmth 0 100 0 2,
          q := 1, type := EQBandType.bell, enabled := true } :: chain.eqCurve }
  if settings.clarity > 40 then
    { chain with eqCurve := chain.eqCurve ++
        [{ frequency := 800, gain := mapRange settings.clarity 40 100 0 (3/2),
           q := 1, type := EQBandType.bell, enabled := true }] }
  else chain

/-- MacroProcessor.enhanceForVocal. -/
def enhanceForVocal (chain : MacroProcessingResult)
    (settings : MixerSettings) : MacroProcessingResult :=
  let chain :=
    { chain with eqCurve :=
        { frequency := 3000, gain := mapRange settings.clarity 0 100 0 3,
          q := 6/5, type := EQBandType.bell,
          enabled := decide (settings.clarity > 20) } :: chain.eqCurve }
  let chain :=
    if settings.clarity > 70 then
      { chain with eqCurve := chain.eqCurve ++
          [{ frequency := 7000, gain := -3/2, q := 2,
             type := EQBandType.bell, enabled := true }] }
    else chain
  let comp := chain.compression
  { chain with compression :=
      { comp with threshold := max comp.threshold (-12),
                  ratio := min ( CompressionSettings.ratio comp) 3,
                  attack := max comp.attack 5 } }

/-- MacroProcessor.enhanceForDrums. -/
def enhanceForDrums (chain : MacroProcessingResult)
    (settings : MixerSettings) : MacroProcessingResult :=
  let chain :=
    if settings.punch > 50 then
      let comp := chain.compression
      { chain with compression := { comp with attack := min comp.attack 3 } }
    else chain
  if settings.air > 60 then
    { chain with eqCurve := chain.eqCurve ++
        [{ frequency := 10000, gain := -1, q := 3/2,
           type := EQBandType.bell, enabled := true }] }
  else chain

/-- MacroProcessor.getPerRoleChain. -/
def getPerRoleChain (role : StemRole) (settings : MixerSettings) :
    MacroProcessingResult :=
  let baseChain := processSettingsToChain settings (some role)
  match role with
  | StemRole.kick => enhanceForKick baseChain settings
  | StemRole.snare => enhanceForSnare baseChain settings
  | StemRole.bass => enhanceForBass baseChain settings
  | StemRole.vocal => enhanceForVocal baseChain settings
  | StemRole.lead => enhanceForVocal baseChain settings
  | StemRole.drums => enhanceForDrums baseChain settings
  | _ => baseChain

end MacroProcessor

/-- Seven-band energy distribution of AudioFeatures (stemAnalysis.ts). -/
structure EnergyDistribution where
  subBass : ℚ
  bass : ℚ
  lowMid : ℚ
  mid : ℚ
  highMid : ℚ
  presence : ℚ
  brilliance : ℚ
deriving DecidableEq, Repr

/-- AudioFeatures (stemAnalysis.ts). -/
structure AudioFeatures where
  spectralCentroid : ℚ
  spectralRolloff : ℚ
  zeroCrossingRate : ℚ
  mfcc : List ℚ
  chromaFeatures : List ℚ
  tempoPeaks : List ℚ
  dynamicRange : ℚ
  fundamentalFreq : ℚ
  harmonicRatio : ℚ
  percussiveRatio : ℚ
  energyDistribution : EnergyDistribution
deriving DecidableEq, Repr

/-- StemAnalysisResult (stemAnalysis.ts). -/
structure StemAnalysisResult where
  stemId : String
  detectedRole : StemRole
  confidence : ℚ
  features : AudioFeatures
  reasoning : String
deriving DecidableEq, Repr

namespace StemAnalyzer

/-- StemAnalyzer.hasVocalFormants. -/
def hasVocalFormants (f : AudioFeatures) : Prop :=
  f.energyDistribution.mid > 1/4 ∧ f.energyDistribution.highMid > 1/5 ∧
    f.energyDistribution.presence > 3/20

instance (f : AudioFeatures) : Decidable (hasVocalFormants f) := by
  unfold hasVocalFormants; infer_instance

/-- StemAnalyzer.isFullSpectrum: at least 5 of the 7 bands above 0.05. -/
def isFullSpectrum (e : EnergyDistribution) : Prop :=
  5 ≤ List.countP (fun v => decide (v > 1/20))
    [e.subBass, e.bass, e.lowMid, e.mid, e.highMid, e.presence, e.brilliance]

instance (e : EnergyDistribution) : Decidable (isFullSpectrum e) := by
  unfold isFullSpectrum; infer_instance

/-- StemAnalyzer.hasMultiplePercussiveElements. -/
def hasMultiplePercussiveElements (f : AudioFeatures) : Prop :=
  2 ≤ List.countP (fun b => b)
      [decide (f.energyDistribution.bass > 1/5),
       decide (f.energyDistribution.lowMid > 1/5),
       decide (f.energyDistribution.brilliance > 1/5)] ∧
    f.tempoPeaks.length > 3

instance (f : AudioFeatures) : Decidable (hasMultiplePercussiveElements f) := by
  unfold hasMultiplePercussiveElements; infer_instance

/-- Selection step of the final Object.entries loop of detectRole: a
candidate replaces the accumulator only when its score is strictly
greater. -/
def pickBest (acc p : StemRole × ℚ) : StemRole × ℚ :=
  if p.2 > acc.2 then p else acc

/-- StemAnalyzer.detectRole: rule-based additive scoring.  The score
object literal of the source lists the candidates in insertion order
kick, snare, hihat, bass, vocal, lead, pad, drums, percussion, other;
percussion never receives an increment and other starts at the 0.1
baseline. -/
def detectRole (f : AudioFeatures) : StemRole :=
  let e := f.energyDistribution
  let pr := AudioFeatures.percussiveRatio f
  let hr := AudioFeatures.harmonicRatio f
  let kickScore : ℚ :=
    (if e.subBass > 3/10 ∧ e.bass > 4/10 then 6/10 else 0) +
    (if f.spectralCentroid < 200 ∧ pr > 7/10 then 4/10 else 0) +
    (if 40 ≤ f.fundamentalFreq ∧ f.fundamentalFreq ≤ 80 then 3/10 else 0)
  let snareScore : ℚ :=
    (if e.lowMid > 3/10 ∧ e.presence > 3/10 then 5/10 else 0) +
    (if 200 ≤ f.spectralCentroid ∧ f.spectralCentroid ≤ 1000 ∧ pr > 6/10
      then 4/10 else 0) +
    (if f.dynamicRange > 20 then 2/10 else 0)
  let hihatScore : ℚ :=
    (if e.brilliance > 4/10 ∧ e.presence > 3/10 then 6/10 else 0) +
    (if f.spectralCentroid > 3000 ∧ pr > 8/10 then 4/10 else 0)
  let bassScore : ℚ :=
    (if e.bass > 5/10 ∧ e.subBass > 2/10 then 6/10 else 0) +
    (if 40 ≤ f.fundamentalFreq ∧ f.fundamentalFreq ≤ 200 ∧ pr < 4/10
      then 4/10 else 0) +
    (if f.spectralCentroid < 300 then 3/10 else 0)
  let vocalScore : ℚ :=
    (if e.mid > 3/10 ∧ e.highMid > 3/10 then 5/10 else 0) +
    (if 500 ≤ f.spectralCentroid ∧ f.spectralCentroid ≤ 2000 then 4/10 else 0) +
    (if hasVocalFormants f then 4/10 else 0)
  let leadScore : ℚ :=
    (if e.mid > 25/100 ∧ e.highMid > 25/100 then 4/10 else 0) +
    (if 400 ≤ f.spectralCentroid ∧ f.spectralCentroid ≤ 3000 then 3/10 else 0) +
    (if hr > 6/10 then 3/10 else 0)
  let padScore : ℚ :=
    (if pr < 2/10 ∧ f.dynamicRange < 10 then 5/10 else 0) +
    (if isFullSpectrum e then 4/10 else 0)
  let drumsScore : ℚ :=
    (if pr > 6/10 ∧ f.dynamicRange > 15 then 4/10 else 0) +
    (if hasMultiplePercussiveElements f then 5/10 else 0)
  let scores : List (StemRole × ℚ) :=
    [(StemRole.kick, kickScore), (StemRole.snare, snareScore),
     (StemRole.hihat, hihatScore), (StemRole.bass, bassScore),
     (StemRole.vocal, vocalScore), (StemRole.lead, leadScore),
     (StemRole.pad, padScore), (StemRole.drums, drumsScore),
     (StemRole.percussion, 0), (StemRole.other, 1/10)]
  (scores.foldl pickBest (StemRole.other, 0)).1

/-- StemAnalyzer.calculateConfidence: base 0.5, per-role bonuses, 0.3 for
generic assignments, clamped into the interval from 0.1 to 1.0. -/
def calculateConfidence (f : AudioFeatures) (role : StemRole) : ℚ :=
  let e := f.energyDistribution
  let pr := AudioFeatures.percussiveRatio f
  let confidence : ℚ :=
    match role with
    | StemRole.kick =>
        1/2 + (if e.subBass > 4/10 then 3/10 else 0) +
          (if f.spectralCentroid < 150 then 2/10 else 0)
    | StemRole.snare =>
        1/2 + (if e.lowMid > 3/10 ∧ e.presence > 2/10 then 3/10 else 0) +
          (if pr > 7/10 then 2/10 else 0)
    | StemRole.bass =>
        1/2 + (if e.bass > 5/10 then 3/10 else 0) +
          (if f.spectralCentroid < 250 then 2/10 else 0)
    | StemRole.vocal =>
        1/2 + (if hasVocalFormants f then 4/10 else 0) +
          (if e.mid > 3/10 then 1/10 else 0)
    | _ => 3/10
  min 1 (max (1/10) confidence)

/-- Exact rendering of a rational as a string.  This abstracts the
numeric formatting (toFixed) of the reasoning templates; the claims never
inspect the rendered digits. -/
def fmtQ (v : ℚ) : String :=
  toString v.num ++ "/" ++ toString v.den

/-- StemAnalyzer.generateReasoning: templated string per detected role. -/
def generateReasoning (f : AudioFeatures) (role : StemRole) : String :=
  let e := f.energyDistribution
  let pr := AudioFeatures.percussiveRatio f
  let sc := fmtQ f.spectralCentroid
  match role with
  | StemRole.kick =>
      "Strong sub-bass energy (" ++ fmtQ (e.subBass * 100) ++
        "%), low spectral centroid (" ++ sc ++
        "Hz), high percussive content (" ++ fmtQ (pr * 100) ++ "%)"
  | StemRole.snare =>
      "Mid-range energy with presence peaks, percussive transients (" ++
        fmtQ (pr * 100) ++ "%), spectral centroid at " ++ sc ++ "Hz"
  | StemRole.bass =>
      "Dominant bass frequencies (" ++ fmtQ (e.bass * 100) ++
        "%), low spectral centroid (" ++ sc ++ "Hz), sustained character"
  | StemRole.vocal =>
      "Mid-frequency dominance with vocal formant structure, spectral centroid at "
        ++ sc ++ "Hz, harmonic content"
  | StemRole.hihat =>
      "High-frequency dominance (" ++ fmtQ (e.brilliance * 100) ++
        "%), very percussive (" ++ fmtQ (pr * 100) ++ "%), spectral centroid > 3kHz"
  | _ =>
      "Mixed frequency content, spectral centroid at " ++ sc ++
        "Hz, moderate characteristics"

/-- StemAnalyzer.getDefaultFeatures: the documented neutral feature set. -/
def getDefaultFeatures : AudioFeatures :=
  { spectralCentroid := 1000, spectralRolloff := 5000,
    zeroCrossingRate := 1/10, mfcc := List.replicate 13 0,
    chromaFeatures := List.replicate 12 (83/1000), tempoPeaks := [],
    dynamicRange := 20, fundamentalFreq := 440, harmonicRatio := 1/2,
    percussiveRatio := 3/10,
    energyDistribution :=
      { subBass := 1/10, bass := 15/100, lowMid := 15/100, mid := 25/100,
        highMid := 15/100, presence := 1/10, brilliance := 1/10 } }

/-- Stem input of analyzeStems: an id and a raw audio buffer.  Buffers
are opaque to the analysis loop, so the buffer type is a parameter. -/
structure Stem (β : Type) where
  id : String
  buffer : β
deriving DecidableEq, Repr

/-- Fallback result pushed by the catch branch of analyzeStems. -/
def fallbackResult (stemId : String) : StemAnalysisResult :=
  { stemId := stemId, detectedRole := StemRole.other, confidence := 1/10,
    features := getDefaultFeatures,
    reasoning := "Analysis failed, assigned generic role" }

/-- StemAnalyzer.analyzeStems: per-stem loop with a try/catch around the
feature extraction; extraction is abstracted as a fallible oracle so a
throw is an Except.error value. -/
def analyzeStems {β : Type} (extractAudioFeatures : β → Except String AudioFeatures)
    (stems : List (Stem β)) : List StemAnalysisResult :=
  stems.map fun stem =>
    match extractAudioFeatures (Stem.buffer stem) with
    | Except.ok features =>
        { stemId := Stem.id stem, detectedRole := detectRole features,
          confidence := calculateConfidence features (detectRole features),
          features := features,
          reasoning := generateReasoning features (detectRole features) }
    | Except.error _ => fallbackResult (Stem.id stem)

end StemAnalyzer

/-- Coarse conflict level of a MaskingHeatmap. -/
inductive ConflictLevel
  | low
  | medium
  | high
deriving DecidableEq, Repr

/-- MaskingHeatmap (processingChain.ts). -/
structure MaskingHeatmap where
  stems : List String
  frequencies : List ℚ
  maskingMatrix : List (List ℚ)
  conflictLevel : ConflictLevel
deriving DecidableEq, Repr

/-- MaskingAnalyzer.analyze of the processing-chain manager: the source
method takes no stem input at all and returns this fixed placeholder
heatmap. -/
def maskingAnalyzerAnalyze : MaskingHeatmap :=
  { stems := ["kick", "bass", "vocal"],
    frequencies := [20, 50, 100, 200, 500, 1000, 2000, 5000, 10000, 20000],
    maskingMatrix :=
      [[0, 2/10, 1/10, 0, 0, 0, 0, 0, 0, 0],
       [3/10, 0, 5/10, 2/10, 0, 0, 0, 0, 0, 0],
       [0, 0, 1/10, 2/10, 3/10, 4/10, 2/10, 1/10, 0, 0]],
    conflictLevel := ConflictLevel.medium }

namespace EffectChain

/-- Value of EffectChain.createSaturationCurve at input x: the switch on
the character string, with the default branch leaving y = x.  The curve
is sampled at 44100 points; createSaturationCurveX gives the i-th x. -/
noncomputable def createSaturationCurveValue (drive : ℝ) (character : String)
    (x : ℝ) : ℝ :=
  if character = "tube" then
    Real.sign x * Real.tanh (|x| * (1 + drive * (1/2)))
  else if character = "tape" then
    Real.tanh (x * (1 + drive * (3/10)))
  else if character = "transistor" then
    Real.sign x * min (|x| * (1 + drive * (4/5))) (19/20)
  else x

/-- Sampled input of createSaturationCurve: x = (i * 2) / samples - 1
with samples = 44100. -/
noncomputable def createSaturationCurveX (i : ℕ) : ℝ :=
  (i * 2 : ℝ) / 44100 - 1

end EffectChain

namespace SidechainDucker

/-- Value t seconds after a Web Audio setTargetAtTime(target, now, tau)
write, starting from the gain v0: the exponential approach with time
constant tau. -/
noncomputable def setTargetGain (v0 target tau t : ℝ) : ℝ :=
  target + (v0 - target) * Real.exp (-(t / tau))

/-- Target gain written by the onLevelChange callback of updateDucking:
the follower level scaled by the assistant value, floored at 10 percent
volume. -/
noncomputable def duckedTargetGain (level assistantValue : ℝ) : ℝ :=
  max (1/10) (1 - level * assistantValue)

/-- Target-stem gain at the 10 ms monitor ticks after disable, starting
from the ducked gain g0.  disable() writes setTargetAtTime(1, now, 0.05)
but neither clears the envelope follower's onLevelChange callback nor
stops its 10 ms setInterval monitor, and the callback only guards on the
target node existing, not on settings.enabled.  So with a persistent
band-limited source level lvl (the scaled level the callback receives)
and assistant value asst, every tick from 10 ms on re-issues
setTargetAtTime(duckedTargetGain lvl asst, now, 0.01), overriding the
restore ramp; ticks are placed 10 ms, 20 ms, ... after the disable
call. -/
noncomputable def postDisableGain (g0 lvl asst : ℝ) : ℕ → ℝ
  | 0 => g0
  | 1 => setTargetGain g0 1 (5/100) (1/100)
  | k + 2 => setTargetGain (postDisableGain g0 lvl asst (k + 1))
      (duckedTargetGain lvl asst) (1/100) (1/100)

end SidechainDucker

/-! Claim theorems. -/

/-- Settings used by several concrete counterexamples: all macros zero,
ordinary negative dB targets, peakCeiling -1 dBFS. -/
def baseSettings : MixerSettings :=
  { previewLUFS := -14, streamLUFS := -14, peakCeiling := -1, punch := 0,
    warmth := 0, clarity := 0, air := 0, width := 0, reverb := 0 }

/-- C1: the masking analyzer of the processing-chain manager is a
hardcoded placeholder.  It accepts no stem input, so on the scenario of
two stems with fully disjoint spectra it still returns the fixed heatmap:
the masking matrix has nonzero entries (0.2, 0.3, 0.5, ...) and
conflictLevel is medium, not low with an all-zero matrix as the claim
requires. -/
theorem maskingAnalyze_placeholder_nonzero_medium :
    MaskingHeatmap.conflictLevel maskingAnalyzerAnalyze = ConflictLevel.medium ∧
      ∃ row ∈ MaskingHeatmap.maskingMatrix maskingAnalyzerAnalyze,
        ∃ v ∈ row, v ≠ 0 := by
  refine ⟨rfl, [0, 2/10, 1/10, 0, 0, 0, 0, 0, 0, 0], ?_, 2/10, ?_, ?_⟩
  · simp [maskingAnalyzerAnalyze]
  · simp
  · norm_num

/-- C2 counterexample: with peakCeiling = -1 dBFS the mapper's limiter
ceiling is still the fixed default -0.1 dBFS, so the ceiling is not
pulled from the settings' peakCeiling field. -/
theorem limiter_ceiling_ignores_peakCeiling_cex :
    ¬ (LimiterSettings.ceiling
        (MacroProcessingResult.limiterSettings
          (MacroProcessor.processSettingsToChain baseSettings none)) =
        MixerSettings.peakCeiling baseSettings) := by
  norm_num [baseSettings, MacroProcessor.processSettingsToChain,
    MacroProcessor.getDefaultLimiter]

/-- C2 amended: for every MixerSettings value and every optional stem
role the mapper's limiter settings are exactly the fixed defaults
(ceiling -0.1 dBFS, release 50 ms, lookahead 5 ms, enabled), independent
of every settings field including peakCeiling; in particular the limiter
is always enabled and no macro drives it. -/
theorem limiterSettings_always_default (settings : MixerSettings)
    (stemRole : Option StemRole) :
    MacroProcessingResult.limiterSettings
        (MacroProcessor.processSettingsToChain settings stemRole) =
      MacroProcessor.getDefaultLimiter ∧
      LimiterSettings.enabled
        (MacroProcessingResult.limiterSettings
          (MacroProcessor.processSettingsToChain settings stemRole)) = true := by
  unfold MacroProcessor.processSettingsToChain
  dsimp only
  split_ifs <;> exact ⟨rfl, rfl⟩

/-- Clamp of a macro value into the interval from 0 to 100, as the claim
words it (spec wording; the source has no such clamp). -/
def clampMacro (v : ℚ) : ℚ :=
  min 100 (max 0 v)

/-- Settings with each of the six macros clamped into 0-100 (spec
wording; the source has no such clamp). -/
def clampSettings (s : MixerSettings) : MixerSettings :=
  { s with
    punch := clampMacro s.punch, warmth := clampMacro s.warmth,
    clarity := clampMacro s.clarity, air := clampMacro s.air,
    width := clampMacro s.width, reverb := clampMacro s.reverb }

/-- C4 counterexample: for clarity = 150 the mapper's output differs
from its output on the clamped settings (the 8000 Hz shelf gets gain 6
instead of 4 and the 350 Hz cut gets -4 instead of -2), so out-of-range
macros are not clamped at the mapper boundary. -/
theorem mapper_not_clamped_cex :
    MacroProcessor.processSettingsToChain { baseSettings with clarity := 150 }
        none ≠
      MacroProcessor.processSettingsToChain
        (clampSettings { baseSettings with clarity := 150 }) none := by
  norm_num [baseSettings, clampSettings, clampMacro,
    MacroProcessor.processSettingsToChain, MacroProcessor.mapRange]

/-- Family of settings with only the clarity macro set, used to state how
the mapper extrapolates beyond the documented range. -/
def claritySettings (c : ℚ) : MixerSettings :=
  { baseSettings with clarity := c }

/-- C4 amended: the mapper applies no clamp to out-of-range macros; it
extrapolates linearly (mapRange has no clamp) and never produces an
error, so a clarity above 100 yields an EQ band whose gain exceeds the
documented 4 dB maximum. -/
theorem mapper_extrapolates_beyond_range (c : ℚ) (hc : 100 < c) :
    ∃ b ∈ MacroProcessingResult.eqCurve
        (MacroProcessor.processSettingsToChain (claritySettings c) none),
      4 < EQBand.gain b := by
  have h0 : (0 : ℚ) < c := by linarith
  have h50 : (50 : ℚ) < c := by linarith
  refine ⟨{ frequency := 8000, gain := MacroProcessor.mapRange c 0 100 0 4,
            q := 7/10, type := EQBandType.highshelf, enabled := true }, ?_, ?_⟩
  · simp only [claritySettings, baseSettings, MacroProcessor.processSettingsToChain]
    norm_num [h0, h50]
  · unfold MacroProcessor.mapRange
    norm_num
    linarith

/-- C5 counterexample: with warmth = 20 and punch = 50 the glue override
rewrites the warmth saturation: the character becomes tape (not tube) and
the drive is raised to 0.5 instead of the warmth-mapped 0.4. -/
theorem warmth_saturation_glue_override_cex :
    SaturationSettings.character
        (MacroProcessingResult.saturation
          (MacroProcessor.processSettingsToChain
            { baseSettings with warmth := 20, punch := 50 } none)) =
        SatCharacter.tape ∧
      SaturationSettings.drive
        (MacroProcessingResult.saturation
          (MacroProcessor.processSettingsToChain
            { baseSettings with warmth := 20, punch := 50 } none)) = 1/2 := by
  norm_num [baseSettings, MacroProcessor.processSettingsToChain,
    MacroProcessor.mapRange, MacroProcessor.getDefaultSaturation]

/-- C5 amended: for every settings value with warmth above 10 and punch
not positive (so the glue override does not fire), and for every optional
role, the mapper's saturation is enabled with character tube, drive
mapped 0 to 0 and 100 to 2, and mix mapped 0 to 0 and 100 to 25.  When
punch is positive the glue override forces character tape and a drive of
at least 0.5 instead. -/
theorem warmth_saturation_tube_when_no_punch (s : MixerSettings)
    (stemRole : Option StemRole) (hw : 10 < MixerSettings.warmth s)
    (hp : ¬ (0 < MixerSettings.punch s)) :
    MacroProcessingResult.saturation
        (MacroProcessor.processSettingsToChain s stemRole) =
      { drive := MacroProcessor.mapRange (MixerSettings.warmth s) 0 100 0 2,
        character := SatCharacter.tube,
        mix := MacroProcessor.mapRange (MixerSettings.warmth s) 0 100 0 25,
        enabled := true } := by
  have h0 : (0 : ℚ) < MixerSettings.warmth s := by linarith
  unfold MacroProcessor.processSettingsToChain
  dsimp only
  split_ifs <;> simp_all

/-- Witness for the amended C4 theorem at clarity = 150. -/
theorem mapper_extrapolates_beyond_range_witness :
    ∃ b ∈ MacroProcessingResult.eqCurve
        (MacroProcessor.processSettingsToChain (claritySettings 150) none),
      4 < EQBand.gain b :=
  mapper_extrapolates_beyond_range 150 (by norm_num)

/-- Witness for the amended C5 theorem at warmth = 20, punch = 0. -/
theorem warmth_saturation_tube_when_no_punch_witness :
    MacroProcessingResult.saturation
        (MacroProcessor.processSettingsToChain
          { baseSettings with warmth := 20 } none) =
      { drive := MacroProcessor.mapRange
          (MixerSettings.warmth { baseSettings with warmth := 20 }) 0 100 0 2,
        character := SatCharacter.tube,
        mix := MacroProcessor.mapRange
          (MixerSettings.warmth { baseSettings with warmth := 20 }) 0 100 0 25,
        enabled := true } :=
  warmth_saturation_tube_when_no_punch _ none (by norm_num [baseSettings])
    (by norm_num [baseSettings])

/-- C6: with punch = 100 and role kick, the enhanced chain's compressor
attack is at most 5 ms and its ratio at least 3, because enhanceForKick
runs after the base mapping (and after the glue override's 20 ms attack
floor) and clamps attack to at most 5 and ratio to at least 3. -/
theorem kick_punch100_attack_ratio (s : MixerSettings)
    (_hp : MixerSettings.punch s = 100) :
    CompressionSettings.attack
        (MacroProcessingResult.compression
          (MacroProcessor.getPerRoleChain StemRole.kick s)) ≤ 5 ∧
      3 ≤ CompressionSettings.ratio
        (MacroProcessingResult.compression
          (MacroProcessor.getPerRoleChain StemRole.kick s)) := by
  unfold MacroProcessor.getPerRoleChain MacroProcessor.enhanceForKick
  dsimp only
  split_ifs <;> exact ⟨min_le_right _ _, le_max_right _ _⟩

/-- Witness for the C6 theorem at punch = 100, all other macros zero. -/
theorem kick_punch100_attack_ratio_witness :
    CompressionSettings.attack
        (MacroProcessingResult.compression
          (MacroProcessor.getPerRoleChain StemRole.kick
            { baseSettings with punch := 100 })) ≤ 5 ∧
      3 ≤ CompressionSettings.ratio
        (MacroProcessingResult.compression
          (MacroProcessor.getPerRoleChain StemRole.kick
            { baseSettings with punch := 100 })) :=
  kick_punch100_attack_ratio _ rfl

/-- C7: for role bass the enhanced chain's stereo width never exceeds
100 percent, whatever the width macro (or any other settings field) is:
enhanceForBass clamps the width with min against 100. -/
theorem bass_width_mono_safe (s : MixerSettings) :
    StereoWidthSettings.width
        (MacroProcessingResult.stereoWidth
          (MacroProcessor.getPerRoleChain StemRole.bass s)) ≤ 100 := by
  unfold MacroProcessor.getPerRoleChain MacroProcessor.enhanceForBass
  dsimp only
  split_ifs <;> exact min_le_right _ _

/-- The selection fold of detectRole stays inside a set of allowed roles
as long as the accumulator starts inside it with a nonnegative score and
every score-list entry either carries an allowed role or a nonpositive
score: a candidate only replaces the accumulator on a strictly greater,
hence positive, score. -/
lemma foldl_pickBest_supported (allowed : List StemRole)
    (l : List (StemRole × ℚ)) :
    ∀ acc : StemRole × ℚ, acc.1 ∈ allowed → 0 ≤ acc.2 →
      (∀ p ∈ l, p.1 ∈ allowed ∨ p.2 ≤ 0) →
      (l.foldl StemAnalyzer.pickBest acc).1 ∈ allowed := by
  induction l with
  | nil => intro acc hacc _ _; simpa using hacc
  | cons p t ih =>
      intro acc hacc hpos hl
      rw [List.foldl_cons]
      by_cases hgt : p.2 > acc.2
      · have hstep : StemAnalyzer.pickBest acc p = p := if_pos hgt
        rw [hstep]
        refine ih p ?_ (by linarith) ?_
        · rcases hl p (List.mem_cons_self _ _) with h | h
          · exact h
          · exact absurd h (by linarith)
        · intro q hq
          exact hl q (List.mem_cons_of_mem _ hq)
      · have hstep : StemAnalyzer.pickBest acc p = acc := if_neg hgt
        rw [hstep]
        exact ih acc hacc hpos fun q hq => hl q (List.mem_cons_of_mem _ hq)

/-- C10: for every feature vector the role classifier returns one of
kick, snare, hihat, bass, vocal, lead, pad, drums or other.  The values
percussion, arpeggio, harmony and fx of the StemRole enumeration are
never returned: arpeggio, harmony and fx have no entry in the score
object, and percussion's entry stays at score 0, which never beats the
nonnegative running maximum (other's 0.1 baseline included). -/
theorem detectRole_returns_supported_role (f : AudioFeatures) :
    StemAnalyzer.detectRole f ∈
      [StemRole.kick, StemRole.snare, StemRole.hihat, StemRole.bass,
       StemRole.vocal, StemRole.lead, StemRole.pad, StemRole.drums,
       StemRole.other] := by
  unfold StemAnalyzer.detectRole
  dsimp only
  apply foldl_pickBest_supported
  · simp
  · exact le_rfl
  · intro p hp
    fin_cases hp <;> simp

/-- C9: a feature-extraction failure on one stem is caught inside the
per-stem loop: that stem's entry becomes the fallback result (role other,
confidence 0.1, the default/neutral feature set, the explanatory
reasoning string), while the loop still produces one result per input
stem, and every stem whose extraction succeeds gets its normally computed
result. -/
theorem analyzeStems_failure_isolated {β : Type}
    (extract : β → Except String AudioFeatures)
    (stems : List (StemAnalyzer.Stem β)) :
    (StemAnalyzer.analyzeStems extract stems).length = stems.length ∧
      (∀ (i : ℕ) (st : StemAnalyzer.Stem β) (msg : String),
        stems[i]? = some st →
        extract (StemAnalyzer.Stem.buffer st) = Except.error msg →
        (StemAnalyzer.analyzeStems extract stems)[i]? =
          some (StemAnalyzer.fallbackResult (StemAnalyzer.Stem.id st))) ∧
      (∀ (i : ℕ) (st : StemAnalyzer.Stem β) (features : AudioFeatures),
        stems[i]? = some st →
        extract (StemAnalyzer.Stem.buffer st) = Except.ok features →
        (StemAnalyzer.analyzeStems extract stems)[i]? = some
          { stemId := StemAnalyzer.Stem.id st,
            detectedRole := StemAnalyzer.detectRole features,
            confidence := StemAnalyzer.calculateConfidence features
              (StemAnalyzer.detectRole features),
            features := features,
            reasoning := StemAnalyzer.generateReasoning features
              (StemAnalyzer.detectRole features) }) := by
  refine ⟨List.length_map _ _, ?_, ?_⟩
  · intro i st msg hst hext
    unfold StemAnalyzer.analyzeStems
    rw [List.getElem?_map, hst, Option.map_some', hext]
  · intro i st features hst hext
    unfold StemAnalyzer.analyzeStems
    rw [List.getElem?_map, hst, Option.map_some', hext]

/-- Witness for the C9 theorem: two stems, the first one failing to
decode, the second one succeeding with the default feature set as its
extracted features. -/
theorem analyzeStems_failure_isolated_witness :
    (StemAnalyzer.analyzeStems
        (fun b : Bool =>
          if b then Except.ok StemAnalyzer.getDefaultFeatures
          else Except.error "decode failure")
        [{ id := "kick", buffer := false }, { id := "pad", buffer := true }]).length = 2 ∧
      (StemAnalyzer.analyzeStems
        (fun b : Bool =>
          if b then Except.ok StemAnalyzer.getDefaultFeatures
          else Except.error "decode failure")
        [{ id := "kick", buffer := false }, { id := "pad", buffer := true }])[0]? =
        some (StemAnalyzer.fallbackResult "kick") := by
  have h := analyzeStems_failure_isolated
    (fun b : Bool =>
      if b then Except.ok StemAnalyzer.getDefaultFeatures
      else Except.error "decode failure")
    [{ id := "kick", buffer := false }, { id := "pad", buffer := true }]
  exact ⟨h.1, h.2.1 0 { id := "kick", buffer := false } "decode failure" rfl rfl⟩

/-- Sign times absolute value gives back the number; used to simplify
the tube and transistor branches of the saturation curve. -/
lemma real_sign_mul_abs (x : ℝ) : Real.sign x * |x| = x := by
  rcases lt_trichotomy x 0 with h | h | h
  · rw [Real.sign_of_neg h, abs_of_neg h]; ring
  · subst h; simp [Real.sign_zero]
  · rw [Real.sign_of_pos h, abs_of_pos h, one_mul]

/-- C3 counterexample: at drive 0 and character transistor the sampled
curve is not the identity: at sample index 44000 (x = 439/441, about
0.9955) the curve clamps to 0.95, a deviation above 0.01, far beyond any
floating-point tolerance. -/
theorem saturationCurve_zeroDrive_not_identity_cex :
    1/100 < EffectChain.createSaturationCurveX 44000 -
      EffectChain.createSaturationCurveValue 0 "transistor"
        (EffectChain.createSaturationCurveX 44000) := by
  have hx : EffectChain.createSaturationCurveX 44000 = 439/441 := by
    unfold EffectChain.createSaturationCurveX
    norm_num
  rw [hx]
  unfold EffectChain.createSaturationCurveValue
  rw [if_neg (by decide), if_neg (by decide), if_pos rfl]
  have h1 : (0 : ℝ) < 439/441 := by norm_num
  rw [Real.sign_of_pos h1, abs_of_pos h1,
    min_eq_right (by norm_num : (19/20 : ℝ) ≤ 439/441 * (1 + 0 * (4/5)))]
  norm_num

/-- C3 amended: at drive 0 the sampled saturation curve is not the
identity.  The tube and tape characters both reduce to tanh x, and the
transistor character is the identity only on inputs of magnitude at most
0.95, clamping to 0.95 above it. -/
theorem saturationCurve_zeroDrive_shape (x : ℝ) :
    EffectChain.createSaturationCurveValue 0 "tube" x = Real.tanh x ∧
      EffectChain.createSaturationCurveValue 0 "tape" x = Real.tanh x ∧
      (|x| ≤ 19/20 →
        EffectChain.createSaturationCurveValue 0 "transistor" x = x) ∧
      (19/20 < x →
        EffectChain.createSaturationCurveValue 0 "transistor" x = 19/20) := by
  refine ⟨?_, ?_, ?_, ?_⟩
  · unfold EffectChain.createSaturationCurveValue
    rw [if_pos rfl]
    have hone : |x| * (1 + 0 * (1/2)) = |x| := by ring
    rw [hone]
    rcases lt_trichotomy x 0 with h | h | h
    · rw [Real.sign_of_neg h, abs_of_neg h, Real.tanh_neg]; ring
    · subst h; simp [Real.sign_zero]
    · rw [Real.sign_of_pos h, abs_of_pos h, one_mul]
  · unfold EffectChain.createSaturationCurveValue
    rw [if_neg (by decide), if_pos rfl]
    have hone : x * (1 + 0 * (3/10)) = x := by ring
    rw [hone]
  · intro hb
    unfold EffectChain.createSaturationCurveValue
    rw [if_neg (by decide), if_neg (by decide), if_pos rfl]
    have hone : |x| * (1 + 0 * (4/5)) = |x| := by ring
    rw [hone, min_eq_left hb, real_sign_mul_abs]
  · intro hb
    have h0 : (0 : ℝ) < x := lt_trans (by norm_num) hb
    unfold EffectChain.createSaturationCurveValue
    rw [if_neg (by decide), if_neg (by decide), if_pos rfl]
    have hone : |x| * (1 + 0 * (4/5)) = |x| := by ring
    rw [hone, abs_of_pos h0, min_eq_right (le_of_lt hb),
      Real.sign_of_pos h0, one_mul]

/-- Witness for the amended C3 theorem at x = 1/2 and x = 1. -/
theorem saturationCurve_zeroDrive_shape_witness :
    EffectChain.createSaturationCurveValue 0 "tube" (1/2) = Real.tanh (1/2) ∧
      EffectChain.createSaturationCurveValue 0 "transistor" (1/2) = 1/2 ∧
      EffectChain.createSaturationCurveValue 0 "transistor" 1 = 19/20 :=
  ⟨(saturationCurve_zeroDrive_shape (1/2)).1,
   (saturationCurve_zeroDrive_shape (1/2)).2.2.1 (by
      rw [abs_of_pos] <;> norm_num),
   (saturationCurve_zeroDrive_shape 1).2.2.2 (by norm_num)⟩


/-- One smoothed write toward a ducked target below the current gain
lands strictly between the target and the current gain. -/
lemma setTarget_step_between (gd v r : ℝ) (hgap : gd < v) (hr0 : 0 < r)
    (hr1 : r < 1) : gd < gd + (v - gd) * r ∧ gd + (v - gd) * r < v := by
  constructor <;> nlinarith

/-- While the source keeps a level whose ducked write target stays below
the restore ramp's 10 ms mark, the re-ducking writes trap every later
monitor tick strictly above the ducked target but no higher than the
10 ms mark: the gain never climbs past its value at the first tick. -/
lemma postDisableGain_trapped (g0 lvl asst : ℝ)
    (h1 : SidechainDucker.duckedTargetGain lvl asst <
      SidechainDucker.setTargetGain g0 1 (5/100) (1/100)) :
    ∀ k : ℕ,
      SidechainDucker.duckedTargetGain lvl asst <
        SidechainDucker.postDisableGain g0 lvl asst (k + 1) ∧
      SidechainDucker.postDisableGain g0 lvl asst (k + 1) ≤
        SidechainDucker.setTargetGain g0 1 (5/100) (1/100) := by
  intro k
  induction k with
  | zero => exact ⟨h1, le_refl _⟩
  | succ n ih =>
      have hr0 : (0:ℝ) < Real.exp (-((1/100:ℝ) / (1/100))) := Real.exp_pos _
      have hr1 : Real.exp (-((1/100:ℝ) / (1/100))) < 1 :=
        Real.exp_lt_one_iff.mpr (by norm_num)
      have hstep := setTarget_step_between
        (SidechainDucker.duckedTargetGain lvl asst)
        (SidechainDucker.postDisableGain g0 lvl asst (n + 1))
        (Real.exp (-((1/100:ℝ) / (1/100)))) ih.1 hr0 hr1
      constructor
      · show SidechainDucker.duckedTargetGain lvl asst <
          SidechainDucker.setTargetGain
            (SidechainDucker.postDisableGain g0 lvl asst (n + 1))
            (SidechainDucker.duckedTargetGain lvl asst) (1/100) (1/100)
        unfold SidechainDucker.setTargetGain
        exact hstep.1
      · refine le_trans ?_ ih.2
        show SidechainDucker.setTargetGain
            (SidechainDucker.postDisableGain g0 lvl asst (n + 1))
            (SidechainDucker.duckedTargetGain lvl asst) (1/100) (1/100) ≤
          SidechainDucker.postDisableGain g0 lvl asst (n + 1)
        unfold SidechainDucker.setTargetGain
        exact le_of_lt hstep.2

/-- C8: disabling the ducker does not restore the target gain while the
source still carries signal, because disable() leaves the envelope
follower's onLevelChange callback registered and its 10 ms monitor
running, and the callback only checks the target node, not
settings.enabled.  With the target ducked to 1/2, callback level 1 and
assistant value 1/2 (so the ducked write target is 1/2), the gain falls
back between the first and second monitor ticks -- the restoration is
not monotone -- and at the end of the documented 50 ms window it is
still below 0.6 instead of 1.0. -/
theorem ducker_disable_reducked_under_signal :
    SidechainDucker.duckedTargetGain 1 (1/2) = 1/2 ∧
      SidechainDucker.postDisableGain (1/2) 1 (1/2) 2 <
        SidechainDucker.postDisableGain (1/2) 1 (1/2) 1 ∧
      SidechainDucker.postDisableGain (1/2) 1 (1/2) 5 < 3/5 := by
  have hgd : SidechainDucker.duckedTargetGain 1 (1/2) = 1/2 := by
    unfold SidechainDucker.duckedTargetGain
    rw [show (1:ℝ) - 1 * (1/2) = 1/2 by norm_num]
    exact max_eq_right (by norm_num)
  have hE1lt : Real.exp (-((1/100:ℝ) / (5/100))) < 1 :=
    Real.exp_lt_one_iff.mpr (by norm_num)
  have hE1gt : (4/5:ℝ) < Real.exp (-((1/100:ℝ) / (5/100))) := by
    have h := Real.add_one_lt_exp
      (show -((1/100:ℝ) / (5/100)) ≠ 0 by norm_num)
    linarith
  have hg1lb : (1/2:ℝ) <
      SidechainDucker.setTargetGain (1/2) 1 (5/100) (1/100) := by
    unfold SidechainDucker.setTargetGain
    linarith
  have hg1ub : SidechainDucker.setTargetGain (1/2) 1 (5/100) (1/100) <
      3/5 := by
    unfold SidechainDucker.setTargetGain
    linarith
  have htrap := postDisableGain_trapped (1/2) 1 (1/2)
    (by rw [hgd]; exact hg1lb)
  refine ⟨hgd, ?_, ?_⟩
  · have hr0 : (0:ℝ) < Real.exp (-((1/100:ℝ) / (1/100))) := Real.exp_pos _
    have hr1 : Real.exp (-((1/100:ℝ) / (1/100))) < 1 :=
      Real.exp_lt_one_iff.mpr (by norm_num)
    have h1eq : SidechainDucker.postDisableGain (1/2) 1 (1/2) 1 =
        SidechainDucker.setTargetGain (1/2) 1 (5/100) (1/100) := rfl
    have hstep := setTarget_step_between (1/2)
      (SidechainDucker.postDisableGain (1/2) 1 (1/2) 1)
      (Real.exp (-((1/100:ℝ) / (1/100)))) (by rw [h1eq]; exact hg1lb) hr0 hr1
    show SidechainDucker.setTargetGain
        (SidechainDucker.postDisableGain (1/2) 1 (1/2) 1)
        (SidechainDucker.duckedTargetGain 1 (1/2)) (1/100) (1/100) <
      SidechainDucker.postDisableGain (1/2) 1 (1/2) 1
    rw [hgd]
    unfold SidechainDucker.setTargetGain
    exact hstep.2
  · exact lt_of_le_of_lt (htrap 4).2 hg1ub
